import Mathlib

/-!
Verification of the meta-tag injection pipeline of the DFT80s website.

The pipeline consists of three Netlify edge functions (blog-meta, social-meta,
category-meta) that rewrite the `<head>` of server-rendered HTML using regex /
substring operations, and one Netlify function (get-blog) that proxies the
WordPress REST API.  We embed the string transformations over `List Char`
(called `Str` below), mirroring JavaScript string and regex semantics for the
specific patterns the source uses.
-/

set_option maxRecDepth 100000
set_option maxHeartbeats 2000000

namespace Site

/-- Strings are modelled as lists of characters, matching JavaScript's
character-sequence view (the source only uses BMP/ASCII patterns). -/
abbrev Str := List Char

/-- Convert a Lean string literal to the `List Char` representation. -/
def str (s : String) : Str := s.data

/-- JavaScript whitespace (`\s`), restricted to the characters that can occur
in the HTML this pipeline processes plus the common Unicode spaces. -/
def isJsSpace (c : Char) : Bool :=
  c = ' ' || c = '\t' || c = '\n' || c = '\r' || c = '\x0b' || c = '\x0c' ||
  c = '\u00A0' || c = '\uFEFF'

/-- JS `String.prototype.trim`. -/
def jsTrim (s : Str) : Str :=
  ((s.dropWhile isJsSpace).reverse.dropWhile isJsSpace).reverse

/-- A character matched by `.` in a JavaScript regex without the `s` flag:
anything except a line terminator. -/
def isDotChar (c : Char) : Bool :=
  !(c = '\n' || c = '\r' || c = '\u2028' || c = '\u2029')

/-- A matcher models a JavaScript regex anchored at the current position:
given the remaining text, it returns the length of the match starting here,
or `none`.  The patterns in the source are simple enough (disjoint character
classes, lazy dot-stars) that each has a deterministic match length. -/
def Matcher := Str → Option Nat

/-- Character comparison, case-insensitive when `ci` is set (the `/i` flag). -/
def charEqCI (ci : Bool) (a b : Char) : Bool :=
  if ci then a.toLower = b.toLower else a = b

/-- Match a literal pattern at the current position. -/
def litLen (ci : Bool) : Str → Str → Option Nat
  | [], _ => some 0
  | _ :: _, [] => none
  | p :: ps, c :: cs =>
    if charEqCI ci p c then (litLen ci ps cs).map (· + 1) else none

/-- Literal-string matcher. -/
def lit (ci : Bool) (pat : String) : Matcher := litLen ci (str pat)

/-- Sequential composition of two matchers. -/
def andThen (m₁ m₂ : Matcher) : Matcher := fun cs =>
  (m₁ cs).bind fun n₁ => (m₂ (cs.drop n₁)).map (n₁ + ·)

/-- Sequential composition of a list of matchers. -/
def seqList : List Matcher → Matcher
  | [] => fun _ => some 0
  | m :: ms => andThen m (seqList ms)

/-- Greedy `\s+`.  In every pattern of the source, `\s+` is followed by a
literal starting with a non-space character, so maximal munch is exact. -/
def wsPlus : Matcher := fun cs =>
  let n := (cs.takeWhile isJsSpace).length
  if n = 0 then none else some n

/-- Greedy `[\s]*`; always followed by a non-space literal in the source. -/
def wsStar : Matcher := fun cs => some (cs.takeWhile isJsSpace).length

/-- Greedy `[C]*` for a character class disjoint from what follows it. -/
def classStar (p : Char → Bool) : Matcher := fun cs =>
  some (cs.takeWhile p).length

/-- Greedy `[C]+` for a character class disjoint from what follows it. -/
def classPlus (p : Char → Bool) : Matcher := fun cs =>
  let n := (cs.takeWhile p).length
  if n = 0 then none else some n

/-- Lazy `.*?` followed by `stop`: at each position first try `stop`, and
otherwise consume one non-line-terminator character.  Returns the total
length including the `stop` match. -/
def lazyUntil (stop : Matcher) : Str → Option Nat
  | [] => stop []
  | c :: cs =>
    match stop (c :: cs) with
    | some n => some n
    | none => if isDotChar c then (lazyUntil stop cs).map (· + 1) else none

/-- Tail-recursive scanning worker for `findIdx`. -/
def findIdxGo (m : Matcher) : Nat → Str → Option (Nat × Nat)
  | i, [] => (m []).map fun n => (i, n)
  | i, c :: cs =>
    match m (c :: cs) with
    | some n => some (i, n)
    | none => findIdxGo m (Nat.succ i) cs

/-- First match of `m` in the text: returns `(index, length)` of the
leftmost match, like a JavaScript regex search. -/
def findIdx (m : Matcher) (s : Str) : Option (Nat × Nat) := findIdxGo m 0 s

/-- List length built with `Nat.succ` so that fuel-indexed loops can peel
it lazily, one constructor at a time. -/
def strLen : Str → Nat
  | [] => 0
  | _ :: cs => Nat.succ (strLen cs)

/-- JS `String.prototype.replace` with a non-global regex (or a plain string
pattern): replace the first match only. -/
def replaceFirstM (m : Matcher) (repl : Str) (s : Str) : Str :=
  match findIdx m s with
  | none => s
  | some (i, n) => s.take i ++ repl ++ s.drop (i + n)

/-- Fuel-indexed worker for global replacement. -/
def replaceAllGo (m : Matcher) (repl : Str) : Nat → Str → Str
  | 0, s => s
  | Nat.succ fuel, s =>
    match findIdx m s with
    | none => s
    | some (i, n) =>
      if n = 0 then s
      else s.take i ++ repl ++ replaceAllGo m repl fuel (s.drop (i + n))

/-- JS `String.prototype.replace` with a `/g` regex.  The global patterns in
the source (`/<[^>]*>/g`, `/&[^;]+;/g`, the `<h1>`/`<p>` rewrites) never match
the empty string, so a fuel of the text length is enough. -/
def replaceAllM (m : Matcher) (repl : Str) (s : Str) : Str :=
  replaceAllGo m repl (strLen s) s

/-- Capture `[^"]*` at the current position, requiring the closing quote. -/
def quoteCapAt (cs : Str) : Option Str :=
  let cap := cs.takeWhile (fun c => !(c = '"'))
  match cs.drop cap.length with
  | [] => none
  | _ :: _ => some cap

/-- Scan for the first position where `pre` matches and is followed by a
closed `([^"]*)"` group; return the captured group.  This is the shape of
every capturing regex in the source (`/<meta\s+name="X"\s+content="([^"]*)"/i`
and friends).  If the closing quote is missing the engine moves on to the
next candidate position, as a backtracking regex engine would. -/
def findQuoteCap (pre : Matcher) : Str → Option Str
  | [] =>
    match pre [] with
    | some n => quoteCapAt (([] : Str).drop n)
    | none => none
  | c :: cs =>
    match pre (c :: cs) with
    | some n =>
      match quoteCapAt ((c :: cs).drop n) with
      | some cap => some cap
      | none => findQuoteCap pre cs
    | none => findQuoteCap pre cs

/-- Span (length) matcher for `[^"]*"` — the value plus its closing quote. -/
def quoteValSpan : Matcher := fun cs =>
  let n := (cs.takeWhile (fun c => !(c = '"'))).length
  match cs.drop n with
  | [] => none
  | _ :: _ => some (n + 1)

/-- The `["']` character class. -/
def quoteChar : Matcher := fun cs =>
  match cs with
  | c :: _ => if c = '"' || c = '\'' then some 1 else none
  | [] => none

/-- The tail `\/?>` of the canonical-link pattern: greedy optional slash,
then `>`. -/
def optSlashGt : Matcher := fun cs =>
  match cs with
  | '/' :: '>' :: _ => some 2
  | '>' :: _ => some 1
  | _ => none

/-- JavaScript numbers as they occur in `get-blog.js`: either NaN or an
integer (all arithmetic there is `parseInt` / `Math.min` / `Math.max`). -/
inductive JsNum where
  | nan
  | num (n : Int)
deriving DecidableEq

/-- Numeric value of a decimal digit list. -/
def natOfDigits (ds : Str) : Nat :=
  ds.foldl (fun a c => a * 10 + (c.toNat - 48)) 0

/-- JS `parseInt(s, 10)`: skip whitespace, optional sign, leading decimal
digit run; no digits means NaN. -/
def parseInt10 (s : Str) : JsNum :=
  let t := s.dropWhile isJsSpace
  let neg : Bool :=
    match t with
    | '-' :: _ => true
    | _ => false
  let t2 : Str :=
    match t with
    | '-' :: r => r
    | '+' :: r => r
    | _ => t
  let ds := t2.takeWhile Char.isDigit
  if ds.isEmpty then .nan
  else .num (if neg then -(natOfDigits ds : Int) else (natOfDigits ds : Int))

/-- JS `Math.max(a, x)` with an integer first argument: NaN propagates. -/
def jsMax (a : Int) : JsNum → JsNum
  | .nan => .nan
  | .num n => .num (max a n)

/-- JS `Math.min(a, x)` with an integer first argument: NaN propagates. -/
def jsMin (a : Int) : JsNum → JsNum
  | .nan => .nan
  | .num n => .num (min a n)

/-- JS truthiness of a number: `0` and `NaN` are falsy. -/
def JsNum.truthy : JsNum → Bool
  | .nan => false
  | .num n => n != 0

/-- Decimal digits of a natural number. -/
def natToStr (n : Nat) : Str := Nat.toDigits 10 n

/-- Decimal rendering of an integer. -/
def intToStr (i : Int) : Str :=
  if i < 0 then '-' :: natToStr i.natAbs else natToStr i.toNat

/-- JS template-literal interpolation of a number: `NaN` prints as "NaN". -/
def JsNum.toStr : JsNum → Str
  | .nan => str "NaN"
  | .num n => intToStr n

/-- JS `x || fallback` for an optional string: `undefined`/`null` and the
empty string are falsy. -/
def orElseStr (v : Option Str) (fb : Str) : Str :=
  match v with
  | some s => if s.isEmpty then fb else s
  | none => fb

/-- JS truthiness of an optional string. -/
def optTruthy (o : Option Str) : Bool :=
  match o with
  | some s => !s.isEmpty
  | none => false

/-- Boolean prefix test (used to model `String.prototype.startsWith`). -/
def leadsWith (pat s : Str) : Bool := (litLen false pat s).isSome

/-- The parts of a parsed URL that the pipeline reads. -/
structure JsURL where
  origin : Str
  pathname : Str
deriving DecidableEq

/-- Modelled platform behaviour of `new URL(s)` for absolute http(s) URLs,
the only shapes the configuration and pipeline produce: a scheme, `//`, a
non-empty host (with optional port), then an optional path, query and
fragment.  Any other input is treated as a parse failure, which the source
handles in a `catch` branch. -/
def parseURL (s : Str) : Option JsURL :=
  let sch : Str :=
    if leadsWith (str "https://") s then str "https://"
    else if leadsWith (str "http://") s then str "http://"
    else []
  if sch.isEmpty then none
  else
    let rest := s.drop sch.length
    let host := rest.takeWhile (fun c => !(c = '/' || c = '?' || c = '#'))
    if host.isEmpty then none
    else
      let after := rest.drop host.length
      let path := after.takeWhile (fun c => !(c = '?' || c = '#'))
      some { origin := sch ++ host,
             pathname := if path.isEmpty then str "/" else path }

/-- Replace every occurrence of the character `c` by `rep` — one pass of the
source's `escapeHtmlAttr` (a global single-character regex replace). -/
def replChar (c : Char) (rep : Str) : Str → Str
  | [] => []
  | x :: xs => (if x = c then rep else [x]) ++ replChar c rep xs

/-- The `escapeHtmlAttr` helper defined identically in `blog-meta` and
`category-meta`: five sequential global replaces, ampersand first. -/
def escapeHtmlAttr (s : Str) : Str :=
  replChar '\'' (str "&#39;")
    (replChar '"' (str "&quot;")
      (replChar '>' (str "&gt;")
        (replChar '<' (str "&lt;")
          (replChar '&' (str "&amp;") s))))

/-- Slug validation `/^[a-zA-Z0-9_-]+$/` shared by `blog-meta` and
`category-meta`. -/
def validSlug (s : Str) : Bool :=
  !s.isEmpty && s.all (fun c => c.isAlphanum || c = '_' || c = '-')

/-- Prefix of the capturing regex `/<meta\s+name="NM"\s+content="([^"]*)"/i`. -/
def metaNamePre (nm : String) : Matcher :=
  seqList [lit true "<meta", wsPlus, lit true ("name=\"" ++ nm ++ "\""),
    wsPlus, lit true "content=\""]

/-- Prefix of the capturing regex
`/<meta\s+property="P"\s+content="([^"]*)"/i`. -/
def metaPropPre (p : String) : Matcher :=
  seqList [lit true "<meta", wsPlus, lit true ("property=\"" ++ p ++ "\""),
    wsPlus, lit true "content=\""]

/-- Prefix of the capturing regex `/<link\s+rel="canonical"\s+href="([^"]*)"/i`. -/
def linkCanonicalPre : Matcher :=
  seqList [lit true "<link", wsPlus, lit true "rel=\"canonical\"", wsPlus,
    lit true "href=\""]

/-- Capture of `/<meta\s+name="description"\s+content="([^"]*)"/i`. -/
def descriptionCapture (html : Str) : Option Str :=
  findQuoteCap (metaNamePre "description") html

/-- Capture of `/<meta\s+name="author"\s+content="([^"]*)"/i`. -/
def authorCapture (html : Str) : Option Str :=
  findQuoteCap (metaNamePre "author") html

/-- Capture of `/<meta\s+name="publisher"\s+content="([^"]*)"/i`. -/
def publisherCapture (html : Str) : Option Str :=
  findQuoteCap (metaNamePre "publisher") html

/-- Capture of `/<link\s+rel="canonical"\s+href="([^"]*)"/i`. -/
def canonicalCapture (html : Str) : Option Str :=
  findQuoteCap linkCanonicalPre html

/-- Capture of `/<meta\s+property="og:image"\s+content="([^"]*)"/i`. -/
def ogImageCapture (html : Str) : Option Str :=
  findQuoteCap (metaPropPre "og:image") html

/-- Span of `/<title>.*?<\/title>/` (with or without the `/i` flag). -/
def titleSpan (ci : Bool) : Matcher :=
  andThen (lit ci "<title>") (lazyUntil (lit ci "</title>"))

/-- Capture of `/<title>(.*?)<\/title>/` in `social-meta`: the text between
the matched title tags. -/
def titleCapture (html : Str) : Option Str :=
  match findIdx (titleSpan false) html with
  | some (i, n) => some (((html.drop i).drop 7).take (n - 15))
  | none => none

/-- Span of `/<link rel="canonical" href=["'].*?["'][\s]*\/?>/` (no `/i`). -/
def canonReplSpan : Matcher :=
  seqList [lit false "<link rel=\"canonical\" href=", quoteChar,
    lazyUntil (seqList [quoteChar, wsStar, optSlashGt])]

/-- Span of `/<meta name="description" content=".*?">/` (no `/i`). -/
def descReplSpan : Matcher :=
  andThen (lit false "<meta name=\"description\" content=\"")
    (lazyUntil (lit false "\">"))

/-- Span of `/<link\s+rel="canonical"\s+href="[^"]*"/i` (`social-meta`). -/
def canonValSpan : Matcher := andThen linkCanonicalPre quoteValSpan

/-- Span of `/<meta\s+property="og:url"\s+content="[^"]*"/i`. -/
def ogUrlValSpan : Matcher := andThen (metaPropPre "og:url") quoteValSpan

/-- Span of `/<meta\s+name="twitter:url"\s+content="[^"]*"/i`. -/
def twitterUrlValSpan : Matcher := andThen (metaNamePre "twitter:url") quoteValSpan

/-- Span of `/<h1 id="category-title">[^<]*<\/h1>/g`. -/
def h1CategorySpan : Matcher :=
  seqList [lit false "<h1 id=\"category-title\">",
    classStar (fun c => !(c = '<')), lit false "</h1>"]

/-- Span of `/<p id="category-description">\s*[^<]*\s*<\/p>/g.`  Every `\s`
character is also `[^<]`, so the matched span is the same as a single
`[^<]*` run between the two literals. -/
def pCategorySpan : Matcher :=
  seqList [lit false "<p id=\"category-description\">",
    classStar (fun c => !(c = '<')), lit false "</p>"]

/-- Span of `/<x-blog-list id="category-posts"><\/x-blog-list>/`. -/
def xBlogListSpan : Matcher :=
  lit false "<x-blog-list id=\"category-posts\"></x-blog-list>"

/-- The literal pattern `'</head>'` of the injection step. -/
def headClose : Matcher := lit false "</head>"

/-- Span of `/<[^>]*>/g` (tag stripping in the excerpt). -/
def tagSpan : Matcher :=
  seqList [lit false "<", classStar (fun c => !(c = '>')), lit false ">"]

/-- Span of `/&[^;]+;/g` (entity stripping in the excerpt). -/
def entitySpan : Matcher :=
  seqList [lit false "&", classPlus (fun c => !(c = ';')), lit false ";"]

/-- Span of `/<meta name="robots" content="index, follow" \/>/`. -/
def robotsIndexSpan : Matcher :=
  lit false "<meta name=\"robots\" content=\"index, follow\" />"

/-- Span of `/<meta name="googlebot" content="index, follow" \/>/`. -/
def googlebotIndexSpan : Matcher :=
  lit false "<meta name=\"googlebot\" content=\"index, follow\" />"

/-- Configuration surface read from `process.env` by the pipeline. -/
structure Env where
  siteURL : Option Str
  siteTitle : Option Str
  socialHandle : Option Str
  wordpressApiURL : Option Str
  siteDescription : Option Str
  previewToken : Option Str

/-- The fields of a WordPress post record that `blog-meta` reads.  Optional
fields model the optional-chaining reads of the source
(`post.excerpt?.rendered`, `post._embedded?.['wp:featuredmedia']?.[0]?.source_url`,
`post._embedded?.author?.[0]?.name`, `post.date`, `post.modified`). -/
structure WPPost where
  titleRendered : Str
  excerptRendered : Option Str
  featuredMediaURL : Option Str
  date : Option Str
  modified : Option Str
  authorName : Option Str

/-- A WordPress category record `\x7bid, slug, name, description\x7d`. -/
structure WPCategory where
  id : Int
  slug : Str
  name : Str
  description : Str

/-- The excerpt computation of `blog-meta`: strip HTML tags, strip entities
(replacing each by a space), trim, truncate to 160 characters; empty when the
rendered excerpt is absent or empty. -/
def blogExcerpt (post : WPPost) : Str :=
  match post.excerptRendered with
  | some e =>
    if e.isEmpty then []
    else (jsTrim (replaceAllM entitySpan (str " ") (replaceAllM tagSpan [] e))).take 160
  | none => []

/-- The bare-template noindex rewrite shared by `blog-meta` and
`category-meta`: flip the `robots` and `googlebot` meta tags from `index` to
`noindex`. -/
def noindexTransform (html : Str) : Str :=
  replaceFirstM googlebotIndexSpan
    (str "<meta name=\"googlebot\" content=\"noindex, follow\" />")
    (replaceFirstM robotsIndexSpan
      (str "<meta name=\"robots\" content=\"noindex, follow\" />") html)

/-- The injection decision for the description tag, identical in `blog-meta`
and `category-meta`: inject when the tag is absent, or present with
whitespace-only content. -/
def needsDescriptionInjection (html : Str) : Bool :=
  let descMatch := descriptionCapture html
  !descMatch.isSome || (jsTrim (descMatch.getD [])).isEmpty

/-- The `WORDPRESS_API_URL`-derived origin used for resource hints: empty
when the variable is unset or does not parse as a URL. -/
def wpDomainOf (env : Env) : Str :=
  match env.wordpressApiURL with
  | some u => if u.isEmpty then [] else ((parseURL u).map JsURL.origin).getD []
  | none => []

/-- The `wpResourceLinks` dns-prefetch/preconnect block of `blog-meta` and
`category-meta` (20-space indentation). -/
def wpResourceLinks20 (wpDomain : Str) : Str :=
  if wpDomain.isEmpty then []
  else
    str "\n                    <link rel=\"dns-prefetch\" href=\"" ++ wpDomain ++
    str "\" />\n                    <link rel=\"preconnect\" href=\"" ++ wpDomain ++
    str "\" />"

/-- The Cloudinary resource-hint block of `blog-meta` and `category-meta`. -/
def cloudinaryLinks20 : Str :=
  str "\n                    <link rel=\"dns-prefetch\" href=\"https://res.cloudinary.com\" />\n                    <link rel=\"preconnect\" href=\"https://res.cloudinary.com\" />"

/-- The HTML transformation of `blog-meta` once a post has been fetched: the
in-place title/canonical/description rewrites followed by the single
`</head>` injection of canonical/description/author/publisher (when needed),
the Open Graph and Twitter Card blocks, and the JSON-LD script.  `now` stands
for `new Date().toISOString()`. -/
def blogMetaTransform (env : Env) (origin slug : Str) (post : WPPost)
    (now : Str) (html : Str) : Str :=
  let excerpt := blogExcerpt post
  let featuredImage := orElseStr post.featuredMediaURL []
  let publishedDate := orElseStr post.date now
  let modifiedDate := orElseStr post.modified publishedDate
  let authorName := orElseStr post.authorName (str "Site Author")
  let siteUrl := orElseStr env.siteURL origin
  let siteTitle := orElseStr env.siteTitle []
  let socialHandle := orElseStr env.socialHandle []
  let cleanUrl := siteUrl ++ str "/blog/" ++ slug
  let safeTitle := escapeHtmlAttr post.titleRendered
  let safeExcerpt := escapeHtmlAttr
    (if excerpt.isEmpty then
      str "Read this article for insights, tips, and valuable information."
     else excerpt)
  let hasDescriptionTag := (descriptionCapture html).isSome
  let hasCanonicalTag := (canonicalCapture html).isSome
  let hasAuthorTag := (authorCapture html).isSome
  let existingAuthor := jsTrim ((authorCapture html).getD [])
  let hasPublisherTag := (publisherCapture html).isSome
  let existingPublisher := jsTrim ((publisherCapture html).getD [])
  let wpResourceLinks := wpResourceLinks20 (wpDomainOf env)
  let needsCanonicalInjection := !hasCanonicalTag
  let needsAuthorInjection := !hasAuthorTag || existingAuthor.isEmpty
  let needsPublisherInjection := !hasPublisherTag || existingPublisher.isEmpty
  let t1 := replaceFirstM (titleSpan false)
    (str "<title>" ++ safeTitle ++ str " | " ++ siteTitle ++ str "</title>") html
  let t2 := replaceFirstM canonReplSpan
    (str "<link rel=\"canonical\" href=\"" ++ cleanUrl ++ str "\">") t1
  let t3 :=
    if hasDescriptionTag then
      replaceFirstM descReplSpan
        (str "<meta name=\"description\" content=\"" ++ safeExcerpt ++ str "\">") t2
    else t2
  let headBlock :=
    wpResourceLinks ++ cloudinaryLinks20 ++
    (if needsCanonicalInjection then
      str "\n                    <link rel=\"canonical\" href=\"" ++ cleanUrl ++ str "\">"
     else []) ++
    (if needsDescriptionInjection html then
      str "\n                    <meta name=\"description\" content=\"" ++ safeExcerpt ++ str "\">"
     else []) ++
    (if needsAuthorInjection then
      str "\n                    <meta name=\"author\" content=\"" ++ siteTitle ++ str "\">"
     else []) ++
    (if needsPublisherInjection then
      str "\n                    <meta name=\"publisher\" content=\"" ++ siteTitle ++ str "\">"
     else []) ++
    str "\n                    <!-- Open Graph Meta Tags -->\n                    <meta property=\"og:title\" content=\"" ++
    safeTitle ++ str " | " ++ siteTitle ++
    str "\">\n                    <meta property=\"og:description\" content=\"" ++ safeExcerpt ++
    str "\">\n                    <meta property=\"og:url\" content=\"" ++ cleanUrl ++
    str "\">\n                    <meta property=\"og:type\" content=\"article\">\n                    " ++
    (if featuredImage.isEmpty then []
     else str "<meta property=\"og:image\" content=\"" ++ featuredImage ++ str "\">") ++
    str "\n                    <meta property=\"og:site_name\" content=\"" ++ siteTitle ++
    str "\">\n                    <meta property=\"og:locale\" content=\"en_GB\">\n                    \n                    <!-- Twitter Card Meta Tags -->\n                    <meta name=\"twitter:card\" content=\"summary_large_image\">\n                    <meta name=\"twitter:site\" content=\"" ++
    socialHandle ++
    str "\">\n                    <meta name=\"twitter:url\" content=\"" ++ cleanUrl ++
    str "\">\n                    <meta name=\"twitter:title\" content=\"" ++ safeTitle ++
    str " | " ++ siteTitle ++
    str "\">\n                    <meta name=\"twitter:description\" content=\"" ++ safeExcerpt ++
    str "\">\n                    " ++
    (if featuredImage.isEmpty then []
     else str "<meta name=\"twitter:image\" content=\"" ++ featuredImage ++ str "\">") ++
    str "\n                    \n                    <!-- JSON-LD Structured Data -->\n                    <script type=\"application/ld+json\">\n                    \x7b\n                        \"@context\": \"https://schema.org\",\n                        \"@type\": \"BlogPosting\",\n                        \"headline\": \"" ++
    safeTitle ++ str " | " ++ siteTitle ++
    str "\",\n                        \"description\": \"" ++ safeExcerpt ++
    str "\",\n                        \"url\": \"" ++ cleanUrl ++
    str "\",\n                        \"datePublished\": \"" ++ publishedDate ++
    str "\",\n                        \"dateModified\": \"" ++ modifiedDate ++
    str "\",\n                        \"author\": \x7b\n                            \"@type\": \"Person\",\n                            \"name\": \"" ++
    escapeHtmlAttr authorName ++
    str "\"\n                        \x7d,\n                        \"publisher\": \x7b\n                            \"@type\": \"Organization\",\n                            \"name\": \"" ++
    siteTitle ++
    str "\"\n                        \x7d" ++
    (if featuredImage.isEmpty then []
     else str ",\n                        \"image\": \"" ++ featuredImage ++ str "\"") ++
    str "\n                    \x7d\n                    </script>\n                </head>"
  replaceFirstM headClose headBlock t3

/-- Outcome of a `fetch` as observed by a try/catch block in the edge
functions: a network error (rejected promise), or a response with its `ok`
flag and already-parsed JSON payload. -/
inductive Fetch (α : Type) where
  | netErr
  | resp (ok : Bool) (payload : α)

/-- The latest-post featured image extracted from a posts fetch, as in the
inner try/catch of `social-meta` and `category-meta`: `null` unless the fetch
succeeded with `ok` and `posts[0]?._embedded?.['wp:featuredmedia']?.[0]?.source_url`
is a non-empty string (`|| null`). -/
def fetchedImage : Fetch (Option Str) → Option Str
  | .resp true p =>
    match p with
    | some s => if s.isEmpty then none else some s
    | none => none
  | _ => none

/-- The HTML transformation of `category-meta` once the category record has
been resolved: title/canonical rewrites, the three body rewrites (`<h1>`,
`<p>`, `<x-blog-list>`), the description rewrite, and the `</head>`
injection. -/
def categoryMetaTransform (env : Env) (origin categorySlug : Str)
    (category : WPCategory) (imgFetch : Fetch (Option Str)) (html : Str) : Str :=
  let description := orElseStr (some category.description)
    (str "Browse " ++ category.name ++ str " posts on our blog.")
  let siteUrl := orElseStr env.siteURL origin
  let siteTitle := orElseStr env.siteTitle []
  let socialHandle := orElseStr env.socialHandle []
  let cleanUrl := siteUrl ++ str "/blog/c/" ++ categorySlug
  let safeTitle := escapeHtmlAttr category.name
  let safeDescription := escapeHtmlAttr description
  let hasDescriptionTag := (descriptionCapture html).isSome
  let hasCanonicalTag := (canonicalCapture html).isSome
  let hasAuthorTag := (authorCapture html).isSome
  let existingAuthor := jsTrim ((authorCapture html).getD [])
  let hasPublisherTag := (publisherCapture html).isSome
  let existingPublisher := jsTrim ((publisherCapture html).getD [])
  let wpResourceLinks := wpResourceLinks20 (wpDomainOf env)
  let fallbackImage := fetchedImage imgFetch
  let needsCanonicalInjection := !hasCanonicalTag
  let needsAuthorInjection := !hasAuthorTag || existingAuthor.isEmpty
  let needsPublisherInjection := !hasPublisherTag || existingPublisher.isEmpty
  let t1 := replaceFirstM (titleSpan false)
    (str "<title>Blog: " ++ safeTitle ++ str " | " ++ siteTitle ++ str "</title>") html
  let t2 := replaceFirstM canonReplSpan
    (str "<link rel=\"canonical\" href=\"" ++ cleanUrl ++ str "\">") t1
  let t3 := replaceAllM h1CategorySpan
    (str "<h1 id=\"category-title\">Blog: " ++ safeTitle ++ str "</h1>") t2
  let t4 := replaceAllM pCategorySpan
    (str "<p id=\"category-description\">" ++ safeDescription ++ str "</p>") t3
  let t5 := replaceFirstM xBlogListSpan
    (str "<x-blog-list id=\"category-posts\" category=\"" ++ intToStr category.id ++
      str "\"></x-blog-list>") t4
  let t6 :=
    if hasDescriptionTag then
      replaceFirstM descReplSpan
        (str "<meta name=\"description\" content=\"" ++ safeDescription ++ str "\">") t5
    else t5
  let headBlock :=
    wpResourceLinks ++ cloudinaryLinks20 ++
    (if needsCanonicalInjection then
      str "\n                    <link rel=\"canonical\" href=\"" ++ cleanUrl ++ str "\">"
     else []) ++
    (if needsDescriptionInjection html then
      str "\n                    <meta name=\"description\" content=\"" ++ safeDescription ++ str "\">"
     else []) ++
    (if needsAuthorInjection then
      str "\n                    <meta name=\"author\" content=\"" ++ siteTitle ++ str "\">"
     else []) ++
    (if needsPublisherInjection then
      str "\n                    <meta name=\"publisher\" content=\"" ++ siteTitle ++ str "\">"
     else []) ++
    str "\n                    <!-- Open Graph Meta Tags -->\n                    <meta property=\"og:title\" content=\"Blog: " ++
    safeTitle ++ str " | " ++ siteTitle ++
    str "\">\n                    <meta property=\"og:description\" content=\"" ++ safeDescription ++
    str "\">\n                    <meta property=\"og:url\" content=\"" ++ cleanUrl ++
    str "\">\n                    <meta property=\"og:type\" content=\"website\">\n                    " ++
    (match fallbackImage with
     | some img => str "<meta property=\"og:image\" content=\"" ++ img ++ str "\">"
     | none => str "<meta property=\"og:image\" content=\"" ++ origin ++ str "/social.jpg\">") ++
    str "\n                    <meta property=\"og:site_name\" content=\"" ++ siteTitle ++
    str "\">\n                    <meta property=\"og:locale\" content=\"en_GB\">\n                    \n                    <!-- Twitter Card Meta Tags -->\n                    <meta name=\"twitter:card\" content=\"summary_large_image\">\n                    <meta name=\"twitter:site\" content=\"" ++
    socialHandle ++
    str "\">\n                    <meta name=\"twitter:url\" content=\"" ++ cleanUrl ++
    str "\">\n                    <meta name=\"twitter:title\" content=\"Blog: " ++ safeTitle ++
    str " | " ++ siteTitle ++
    str "\">\n                    <meta name=\"twitter:description\" content=\"" ++ safeDescription ++
    str "\">\n                    " ++
    (match fallbackImage with
     | some img => str "<meta name=\"twitter:image\" content=\"" ++ img ++ str "\">"
     | none => str "<meta name=\"twitter:image\" content=\"" ++ origin ++ str "/social.jpg\">") ++
    str "\n                    \n                    <!-- JSON-LD Structured Data -->\n                    <script type=\"application/ld+json\">\n                    \x7b\n                        \"@context\": \"https://schema.org\",\n                        \"@type\": \"CollectionPage\",\n                        \"name\": \"Blog: " ++
    safeTitle ++ str " | " ++ siteTitle ++
    str "\",\n                        \"description\": \"" ++ safeDescription ++
    str "\",\n                        \"url\": \"" ++ cleanUrl ++
    str "\",\n                        \"isPartOf\": \x7b\n                            \"@type\": \"WebSite\",\n                            \"name\": \"" ++
    siteTitle ++
    str "\",\n                            \"url\": \"" ++ siteUrl ++
    str "\"\n                        \x7d\n                    \x7d\n                    </script>\n                </head>"
  replaceFirstM headClose headBlock t6

/-- The `wpResourceLinks` block of `social-meta` (8-space indentation). -/
def wpResourceLinks8 (wpDomain : Str) : Str :=
  if wpDomain.isEmpty then []
  else
    str "\n        <link rel=\"dns-prefetch\" href=\"" ++ wpDomain ++
    str "\" />\n        <link rel=\"preconnect\" href=\"" ++ wpDomain ++ str "\" />"

/-- The Cloudinary resource-hint block of `social-meta`. -/
def cloudinaryLinks8 : Str :=
  str "\n        <link rel=\"dns-prefetch\" href=\"https://res.cloudinary.com\" />\n        <link rel=\"preconnect\" href=\"https://res.cloudinary.com\" />"

/-- The image URL selected by `social-meta`: the existing `og:image` content
when that tag is present, otherwise the site default `/social.jpg`, upgraded
to the latest post's featured image on the blog listing page when no
`og:image` tag exists and the fetch yields one. -/
def socialImageUrl (siteUrl pathname : Str) (latestFetch : Fetch (Option Str))
    (html : Str) : Str :=
  let ogImageMatch := ogImageCapture html
  let base :=
    match ogImageMatch with
    | some v => v
    | none => siteUrl ++ str "/social.jpg"
  let isBlogListing := pathname == str "/blog" || pathname == str "/blog/"
  if isBlogListing && !ogImageMatch.isSome then
    match fetchedImage latestFetch with
    | some img => img
    | none => base
  else base

/-- The canonical URL rebuilt by `social-meta`: always `SITE_URL` plus a
path; when a non-empty canonical tag exists its path component (or, failing
URL parsing, the raw value with a leading slash ensured) is reused. -/
def socialCanonicalUrl (siteUrl pathname : Str) (html : Str) : Str :=
  match canonicalCapture html with
  | some c =>
    if (jsTrim c).isEmpty then siteUrl ++ pathname
    else
      match parseURL c with
      | some u => siteUrl ++ u.pathname
      | none => siteUrl ++ (if leadsWith (str "/") c then c else '/' :: c)
  | none => siteUrl ++ pathname

/-- The page title computed by `social-meta`: the trimmed existing title when
present and non-empty, otherwise `SITE_TITLE`. -/
def socialPageTitle (env : Env) (html : Str) : Str :=
  match titleCapture html with
  | some t => if t.isEmpty then orElseStr env.siteTitle [] else jsTrim t
  | none => orElseStr env.siteTitle []

/-- The `fullTitle` of `social-meta`: "Page Title | Site Name" unless the
page title is empty, equal to the site title, or the site title is empty. -/
def socialFullTitle (pageTitle siteTitle : Str) : Str :=
  if !pageTitle.isEmpty && !siteTitle.isEmpty && !(pageTitle == siteTitle) then
    pageTitle ++ str " | " ++ siteTitle
  else if pageTitle.isEmpty then siteTitle else pageTitle

/-- The HTML transformation of `social-meta`: head injection of the social
meta block and JSON-LD, then the unconditional title, canonical, `og:url`
and `twitter:url` rewrites. -/
def socialMetaTransform (env : Env) (origin pathname : Str)
    (latestFetch : Fetch (Option Str)) (html : Str) : Str :=
  let siteUrl := orElseStr env.siteURL origin
  let siteTitle := orElseStr env.siteTitle []
  let socialHandle := orElseStr env.socialHandle []
  let pageTitle := socialPageTitle env html
  let fullTitle := socialFullTitle pageTitle siteTitle
  let descMatch := descriptionCapture html
  let hasDescriptionTag := descMatch.isSome
  let existingDescription := jsTrim (descMatch.getD [])
  let description :=
    if existingDescription.isEmpty then orElseStr env.siteDescription []
    else existingDescription
  let hasAuthorTag := (authorCapture html).isSome
  let existingAuthor := jsTrim ((authorCapture html).getD [])
  let hasPublisherTag := (publisherCapture html).isSome
  let existingPublisher := jsTrim ((publisherCapture html).getD [])
  let canonicalUrl := socialCanonicalUrl siteUrl pathname html
  let imageUrl := socialImageUrl siteUrl pathname latestFetch html
  let isBlogListing := pathname == str "/blog" || pathname == str "/blog/"
  let schemaType := if isBlogListing then str "CollectionPage" else str "WebPage"
  let jsonLd :=
    str "\n        \n        <!-- JSON-LD Structured Data -->\n        <script type=\"application/ld+json\">\n        \x7b\n            \"@context\": \"https://schema.org\",\n            \"@type\": \"" ++
    schemaType ++
    str "\",\n            \"name\": \"" ++ fullTitle ++
    str "\",\n            \"description\": \"" ++ description ++
    str "\",\n            \"url\": \"" ++ canonicalUrl ++
    str "\",\n            \"image\": \"" ++ imageUrl ++
    str "\",\n            \"publisher\": \x7b\n                \"@type\": \"Organization\",\n                \"name\": \"" ++
    siteTitle ++
    str "\"\n            \x7d\n        \x7d\n        </script>"
  let wpResourceLinks :=
    if isBlogListing then wpResourceLinks8 (wpDomainOf env) else []
  let metaDescriptionTag :=
    if (!hasDescriptionTag || existingDescription.isEmpty) && !description.isEmpty then
      str "\n        <meta name=\"description\" content=\"" ++ description ++ str "\">"
    else []
  let metaAuthorTag :=
    if !hasAuthorTag || existingAuthor.isEmpty then
      str "\n        <meta name=\"author\" content=\"" ++ siteTitle ++ str "\">"
    else []
  let metaPublisherTag :=
    if !hasPublisherTag || existingPublisher.isEmpty then
      str "\n        <meta name=\"publisher\" content=\"" ++ siteTitle ++ str "\">"
    else []
  let socialMeta :=
    metaDescriptionTag ++ metaAuthorTag ++ metaPublisherTag ++
    str "\n        <!-- Open Graph Meta Tags -->\n        <meta property=\"og:type\" content=\"website\">\n        <meta property=\"og:url\" content=\"" ++
    canonicalUrl ++
    str "\">\n        <meta property=\"og:title\" content=\"" ++ fullTitle ++
    str "\">\n        <meta property=\"og:description\" content=\"" ++ description ++
    str "\">\n        <meta property=\"og:image\" content=\"" ++ imageUrl ++
    str "\">\n        <meta property=\"og:site_name\" content=\"" ++ siteTitle ++
    str "\">\n        <meta property=\"og:locale\" content=\"en_GB\">\n        \n        <!-- Twitter Card Meta Tags -->\n        <meta name=\"twitter:card\" content=\"summary_large_image\">\n        <meta name=\"twitter:site\" content=\"" ++
    socialHandle ++
    str "\">\n        <meta name=\"twitter:url\" content=\"" ++ canonicalUrl ++
    str "\">\n        <meta name=\"twitter:title\" content=\"" ++ fullTitle ++
    str "\">\n        <meta name=\"twitter:description\" content=\"" ++ description ++
    str "\">\n        <meta name=\"twitter:image\" content=\"" ++ imageUrl ++ str "\">" ++
    jsonLd
  let canonicalTag :=
    if (canonicalCapture html).isSome then []
    else str "<link rel=\"canonical\" href=\"" ++ canonicalUrl ++ str "\">\n        "
  let t1 := replaceFirstM headClose
    (wpResourceLinks ++ cloudinaryLinks8 ++ canonicalTag ++ socialMeta ++
      str "\n    </head>") html
  let t2 := replaceFirstM (titleSpan true)
    (str "<title>" ++ fullTitle ++ str "</title>") t1
  let t3 := replaceFirstM canonValSpan
    (str "<link rel=\"canonical\" href=\"" ++ canonicalUrl ++ str "\"") t2
  let t4 := replaceFirstM ogUrlValSpan
    (str "<meta property=\"og:url\" content=\"" ++ canonicalUrl ++ str "\"") t3
  replaceFirstM twitterUrlValSpan
    (str "<meta name=\"twitter:url\" content=\"" ++ canonicalUrl ++ str "\"") t4

/-- The HTTP response shape the handlers produce (status, body text, and
headers). -/
structure NetResponse where
  status : Nat
  body : Str
  headers : List (Str × Str)
deriving DecidableEq

/-- JS `pathname.split('/').filter(Boolean)`. -/
def pathParts (p : Str) : List Str :=
  (p.splitOn '/').filter (fun s => !s.isEmpty)

/-- The `blog-meta` edge-function handler.  `slugParam` is
`url.searchParams.get('slug')`; `upstream` is `context.next()`; `postFetch`
is the outcome of the get-blog fetch; `now` stands for
`new Date().toISOString()`. -/
def blogMetaHandler (env : Env) (origin pathname : Str) (slugParam : Option Str)
    (upstream : NetResponse) (postFetch : Fetch (List WPPost)) (now : Str) :
    NetResponse :=
  if pathname == str "/blog" || pathname == str "/blog/" ||
      pathname == str "/blog/index.html" then upstream
  else
    let fromPath : Option Str := (pathParts pathname).getLast?
    let slug : Option Str := if optTruthy slugParam then slugParam else fromPath
    if !optTruthy slugParam &&
        (fromPath == some (str "post") || fromPath == some (str "post.html")) then
      { status := upstream.status,
        body := noindexTransform upstream.body,
        headers := [(str "Content-Type", str "text/html; charset=utf-8")] }
    else if !optTruthy slug then upstream
    else
      let slugS := slug.getD []
      if !validSlug slugS then upstream
      else
        match postFetch with
        | .netErr => upstream
        | .resp false _ => upstream
        | .resp true posts =>
          match posts.head? with
          | none => upstream
          | some post =>
            { status := upstream.status,
              body := blogMetaTransform env origin slugS post now upstream.body,
              headers := [(str "Content-Type", str "text/html; charset=utf-8"),
                          (str "Cache-Control", str "public, max-age=3600")] }

/-- The category-slug extraction of `category-meta` (query parameter first,
then the `/blog/c/slug` path segment; only the path-derived slug is run
through the `/^[a-zA-Z0-9_-]+$/` check). -/
def categorySlugOf (catParam : Option Str) (pathname : Str) : Option Str :=
  if !optTruthy catParam && leadsWith (str "/blog/c/") pathname then
    match (pathParts pathname).get? 2 with
    | some s => if validSlug s then some s else none
    | none => none
  else catParam

/-- The `category-meta` edge-function handler. -/
def categoryMetaHandler (env : Env) (origin pathname : Str)
    (catParam : Option Str) (upstream : NetResponse)
    (catFetch : Fetch (List WPCategory)) (imgFetch : Fetch (Option Str)) :
    NetResponse :=
  let catSlug := categorySlugOf catParam pathname
  if !optTruthy catSlug && pathname == str "/blog/category.html" then
    { status := upstream.status,
      body := noindexTransform upstream.body,
      headers := [(str "Content-Type", str "text/html; charset=utf-8")] }
  else if !optTruthy catSlug then upstream
  else
    let categorySlug := catSlug.getD []
    match catFetch with
    | .netErr => upstream
    | .resp false _ => upstream
    | .resp true cats =>
      match cats.find? (fun c => c.slug == categorySlug) with
      | none =>
        { status := 404, body := [], headers := [(str "Location", str "/404")] }
      | some category =>
        { status := upstream.status,
          body := categoryMetaTransform env origin categorySlug category imgFetch
            upstream.body,
          headers := [(str "Content-Type", str "text/html; charset=utf-8"),
                      (str "Cache-Control", str "public, max-age=3600")] }

/-- The `social-meta` edge-function handler.  `hasSlugParam` is
`url.searchParams.has('slug')`; `contentTypeHtml` says whether the upstream
content-type header contains `text/html`. -/
def socialMetaHandler (env : Env) (origin pathname : Str) (hasSlugParam : Bool)
    (upstream : NetResponse) (contentTypeHtml : Bool)
    (latestFetch : Fetch (Option Str)) : NetResponse :=
  if leadsWith (str "/blog/") pathname ||
      (pathname == str "/blog" && hasSlugParam) then upstream
  else if pathname == str "/404" || pathname == str "/404.html" then upstream
  else if !contentTypeHtml then upstream
  else
    { status := upstream.status,
      body := socialMetaTransform env origin pathname latestFetch upstream.body,
      headers := upstream.headers }

/-- The `posts` page-size validation of `get-blog`:
`posts ? Math.min(100, Math.max(1, parseInt(posts, 10))) : null`. -/
def validatedPostsOf (posts : Option Str) : Option JsNum :=
  if optTruthy posts then some (jsMin 100 (jsMax 1 (parseInt10 (posts.getD []))))
  else none

/-- The `offset` computation of `get-blog`:
`Math.max(0, parseInt(url.searchParams.get('offset') || '0', 10))`. -/
def offsetOf (offset : Option Str) : JsNum :=
  jsMax 0 (parseInt10 (orElseStr offset (str "0")))

/-- The WordPress URL built by `get-blog` from the request parameters. -/
def getBlogWpUrl (wpBaseUrl : Str) (slug posts offset category categories : Option Str)
    (preview : Bool) : Str :=
  let offsetN := offsetOf offset
  let validatedPosts := validatedPostsOf posts
  if optTruthy categories then
    wpBaseUrl ++ str "/categories?per_page=100"
  else if optTruthy slug then
    wpBaseUrl ++ str "/posts?slug=" ++ slug.getD [] ++ str "&_embed" ++
      (if preview then str "&status=publish,draft,private" else [])
  else if (validatedPosts.map JsNum.truthy).getD false then
    wpBaseUrl ++ str "/posts?per_page=" ++ (validatedPosts.getD .nan).toStr ++
      str "&offset=" ++ offsetN.toStr ++ str "&_embed" ++
      (if optTruthy category then str "&categories=" ++ category.getD [] else [])
  else
    wpBaseUrl ++ str "/posts?per_page=10&_embed"

/-- The JWT endpoint URL of `getJWTToken`: the base URL with any `/wp-json...`
suffix removed (the env value is a single line, so `/\/wp-json.*$/` matches
from the first occurrence to the end) plus the jwt-auth path. -/
def jwtUrlOf (wpBaseUrl : Str) : Str :=
  (match findIdx (lit false "/wp-json") wpBaseUrl with
   | some (i, _) => wpBaseUrl.take i
   | none => wpBaseUrl) ++ str "/wp-json/jwt-auth/v1/token"

/-- A WordPress fetch outcome as seen by `get-blog`: network error with its
message, or a response with `ok`, status, and body (for a success, the body
stands for `JSON.stringify` of the parsed payload). -/
inductive WPFetch where
  | netErr (msg : Str)
  | resp (ok : Bool) (status : Nat) (body : Str)

/-- The error body built by the catch block of `get-blog`. -/
def getBlogFailureBody (message : Str) : Str :=
  str "\x7b\"error\":\"Failed to fetch blog posts\",\"message\":\"" ++ message ++
  str "\"\x7d"

/-- Result of the `get-blog` function: a response together with the list of
URLs it fetched, or an uncaught throw (missing `WORDPRESS_API_URL`). -/
inductive GetBlogOutcome where
  | response (r : NetResponse) (fetched : List Str)
  | thrown (msg : Str)

/-- The `get-blog` Netlify function.  The seven `Option Str` arguments are
the query parameters; `jwtFetch` is the token-issuance fetch outcome
(its payload is `data.token`); `wpFetch` is the WordPress fetch outcome.
`wpCreds` says whether both `WP_USERNAME` and `WP_PASSWORD` are set
(`getJWTToken` returns null without fetching otherwise). -/
def getBlog (env : Env) (slugP postsP offsetP categoryP categoriesP previewP tokenP : Option Str)
    (wpCreds : Bool) (jwtFetch : Fetch (Option Str)) (wpFetch : WPFetch) :
    GetBlogOutcome :=
  let preview := previewP == some (str "true")
  let authFail :=
    match env.previewToken with
    | none => true
    | some e => e.isEmpty || !(tokenP == some e)
  if preview && authFail then
    .response
      { status := 401,
        body := str "\x7b\"error\":\"Unauthorized\",\"message\":\"Invalid preview token\"\x7d",
        headers := [(str "Content-Type", str "application/json")] }
      []
  else
    match env.wordpressApiURL with
    | none => .thrown (str "WORDPRESS_API_URL environment variable is required")
    | some wpBase =>
      if wpBase.isEmpty then
        .thrown (str "WORDPRESS_API_URL environment variable is required")
      else
        let wpUrl := getBlogWpUrl wpBase slugP postsP offsetP categoryP categoriesP preview
        let jwtToken : Option Str :=
          if !wpCreds then none
          else
            match jwtFetch with
            | .netErr => none
            | .resp false _ => none
            | .resp true tok => tok
        let jwtFetched : List Str :=
          if preview && wpCreds then [jwtUrlOf wpBase] else []
        if preview && !optTruthy jwtToken then
          .response
            { status := 500,
              body := getBlogFailureBody (str "Failed to authenticate with WordPress"),
              headers := [(str "Content-Type", str "application/json")] }
            jwtFetched
        else
          match wpFetch with
          | .netErr msg =>
            .response
              { status := 500, body := getBlogFailureBody msg,
                headers := [(str "Content-Type", str "application/json")] }
              (jwtFetched ++ [wpUrl])
          | .resp ok st body =>
            if !ok then
              .response
                { status := 500,
                  body := getBlogFailureBody
                    (str "WordPress API error: " ++ natToStr st),
                  headers := [(str "Content-Type", str "application/json")] }
                (jwtFetched ++ [wpUrl])
            else
              .response
                { status := 200, body := body,
                  headers :=
                    [(str "Content-Type", str "application/json"),
                     (str "Cache-Control",
                       str "public, s-maxage=3600, stale-while-revalidate=86400"),
                     (str "Netlify-CDN-Cache-Control",
                       str "public, s-maxage=3600, stale-while-revalidate=86400"),
                     (str "Access-Control-Allow-Origin", str "*")] }
                (jwtFetched ++ [wpUrl])

/-- Does `pat` occur as a substring of `s`? -/
def containsStr (s pat : Str) : Bool := (findIdx (litLen false pat) s).isSome

/-- Short-circuiting character-list equality; the kernel evaluates it with
constant stack, unlike the derived decidable equality. -/
def eqStr : Str → Str → Bool
  | [], [] => true
  | a :: as, b :: bs => a == b && eqStr as bs
  | _, _ => false

/-- Does `m` match at least `k` times (non-overlapping, leftmost-first)
in `s`?  "Exactly k occurrences" is `atLeastOccurs k && !atLeastOccurs (k+1)`. -/
def atLeastOccurs : Nat → Matcher → Str → Bool
  | 0, _, _ => true
  | Nat.succ k, m, s =>
    match findIdx m s with
    | none => false
    | some (i, n) => atLeastOccurs k m (s.drop (i + n))

/-- Capture of `/<meta\s+property="og:url"\s+content="([^"]*)"/i`. -/
def ogUrlCapture (html : Str) : Option Str :=
  findQuoteCap (metaPropPre "og:url") html

/-- Capture of `/<meta\s+name="twitter:url"\s+content="([^"]*)"/i`. -/
def twitterUrlCapture (html : Str) : Option Str :=
  findQuoteCap (metaNamePre "twitter:url") html

/-- Shared test environment: the configuration surface with every variable
set to a representative value. -/
def envA : Env :=
  { siteURL := some (str "https://site.example"),
    siteTitle := some (str "Site"),
    socialHandle := some (str "@site"),
    wordpressApiURL := none,
    siteDescription := some (str "Default description"),
    previewToken := some (str "sekret") }

/-- A post with no featured image. -/
def postA : WPPost :=
  { titleRendered := str "Hello",
    excerptRendered := some (str "<p>An excerpt</p>"),
    featuredMediaURL := none,
    date := some (str "2024-01-01T00:00:00.000Z"),
    modified := none,
    authorName := some (str "Ann") }

/-- A post whose featured-image URL contains an ampersand. -/
def postAmp : WPPost :=
  { postA with featuredMediaURL := some (str "https://x.example/i.jpg?a=1&b=2") }

/-- A document with a title but no `</head>` anchor. -/
def docTitleOnly : Str := str "<title>Old</title><p>body</p>"

/-- A document with none of the recognized patterns. -/
def docPlain : Str := str "<p>hi</p>"

/-- A blog template whose description tag is present but empty. -/
def blogDocEmptyDesc : Str :=
  str "<html><head><title>T</title><meta name=\"description\" content=\"\"></head><body></body></html>"

/-- A blog template with a non-empty description tag. -/
def blogDocDesc : Str :=
  str "<html><head><title>T</title><meta name=\"description\" content=\"Existing text\"></head><body></body></html>"

/-- A blog template with no description tag. -/
def blogDocBare : Str :=
  str "<html><head><title>T</title></head><body></body></html>"

/-- A blog template with title, canonical and description tags. -/
def blogDocFull : Str :=
  str "<html><head><title>T</title><link rel=\"canonical\" href=\"/old\"><meta name=\"description\" content=\"Existing text\"></head><body></body></html>"

/-- A generic page whose description contains an ampersand. -/
def socialDocAmp : Str :=
  str "<html><head><title>Home</title><meta name=\"description\" content=\"Fish & Chips\"></head><body></body></html>"

/-- A generic page with only a title. -/
def socialDocHome : Str :=
  str "<html><head><title>Home</title></head><body></body></html>"

/-- A category record. -/
def catRecordA : WPCategory :=
  { id := 7, slug := str "news", name := str "News", description := str "Latest news" }

/-- The category template: head plus the three body elements the rewriter
touches. -/
def catDocA : Str :=
  str "<html><head><title>Blog Category</title></head><body><h1 id=\"category-title\">Loading</h1><p id=\"category-description\">Loading</p><x-blog-list id=\"category-posts\"></x-blog-list></body></html>"

/-- A representative upstream response. -/
def upstreamA : NetResponse :=
  { status := 200, body := catDocA,
    headers := [(str "Content-Type", str "text/html; charset=utf-8")] }

/-- A post whose title contains an ampersand. -/
def postTitleAmp : WPPost := { postA with titleRendered := str "A & B" }

/-- An upstream response carrying the generic page. -/
def upstreamSocial : NetResponse :=
  { status := 200, body := socialDocHome,
    headers := [(str "Content-Type", str "text/html; charset=utf-8")] }

/-- One application of the blog merge to the full blog template. -/
def blogOnce : Str :=
  blogMetaTransform envA (str "https://o.example") (str "hello") postA
    (str "NOW") blogDocFull

/-- Literal snapshot of `blogOnce` (proved equal in the C3 theorem), kept flat so that the second application evaluates over a plain literal. -/
def blogOnceLit : Str :=
  str "<html><head><title>Hello | Site</title><link rel=\"canonical\" href=\"https://site.example/blog/hello\"><meta name=\"description\" content=\"An excerpt\">\n                    <link rel=\"dns-prefetch\" href=\"https://res.cloudinary.com\" />\n                    <link rel=\"preconnect\" href=\"https://res.cloudinary.com\" />\n                    <meta name=\"author\" content=\"Site\">\n                    <meta name=\"publisher\" content=\"Site\">\n                    <!-- Open Graph Meta Tags -->\n                    <meta property=\"og:title\" content=\"Hello | Site\">\n                    <meta property=\"og:description\" content=\"An excerpt\">\n                    <meta property=\"og:url\" content=\"https://site.example/blog/hel" ++
  str "lo\">\n                    <meta property=\"og:type\" content=\"article\">\n                    \n                    <meta property=\"og:site_name\" content=\"Site\">\n                    <meta property=\"og:locale\" content=\"en_GB\">\n                    \n                    <!-- Twitter Card Meta Tags -->\n                    <meta name=\"twitter:card\" content=\"summary_large_image\">\n                    <meta name=\"twitter:site\" content=\"@site\">\n                    <meta name=\"twitter:url\" content=\"https://site.example/blog/hello\">\n                    <meta name=\"twitter:title\" content=\"Hello | Site\">\n                    <meta name=\"twitter:description\" content=\"An excerpt\">\n                    \n            " ++
  str "        \n                    <!-- JSON-LD Structured Data -->\n                    <script type=\"application/ld+json\">\n                    \x7b\n                        \"@context\": \"https://schema.org\",\n                        \"@type\": \"BlogPosting\",\n                        \"headline\": \"Hello | Site\",\n                        \"description\": \"An excerpt\",\n                        \"url\": \"https://site.example/blog/hello\",\n                        \"datePublished\": \"2024-01-01T00:00:00.000Z\",\n                        \"dateModified\": \"2024-01-01T00:00:00.000Z\",\n                        \"author\": \x7b\n                            \"@type\": \"Person\",\n                            \"name\": \"Ann\"\n                     " ++
  str "   \x7d,\n                        \"publisher\": \x7b\n                            \"@type\": \"Organization\",\n                            \"name\": \"Site\"\n                        \x7d\n                    \x7d\n                    </script>\n                </head><body></body></html>"

/-- Literal snapshot of `socialOnce` (proved equal in the C3 theorems). -/
def socialOnceLit : Str :=
  str "<html><head><title>Home | Site</title>\n        <link rel=\"dns-prefetch\" href=\"https://res.cloudinary.com\" />\n        <link rel=\"preconnect\" href=\"https://res.cloudinary.com\" /><link rel=\"canonical\" href=\"https://site.example/about\">\n        \n        <meta name=\"description\" content=\"Default description\">\n        <meta name=\"author\" content=\"Site\">\n        <meta name=\"publisher\" content=\"Site\">\n        <!-- Open Graph Meta Tags -->\n        <meta property=\"og:type\" content=\"website\">\n        <meta property=\"og:url\" content=\"https://site.example/about\">\n        <meta property=\"og:title\" content=\"Home | Site\">\n        <meta property=\"og:description\" content=\"Default description\">\n        <meta p" ++
  str "roperty=\"og:image\" content=\"https://site.example/social.jpg\">\n        <meta property=\"og:site_name\" content=\"Site\">\n        <meta property=\"og:locale\" content=\"en_GB\">\n        \n        <!-- Twitter Card Meta Tags -->\n        <meta name=\"twitter:card\" content=\"summary_large_image\">\n        <meta name=\"twitter:site\" content=\"@site\">\n        <meta name=\"twitter:url\" content=\"https://site.example/about\">\n        <meta name=\"twitter:title\" content=\"Home | Site\">\n        <meta name=\"twitter:description\" content=\"Default description\">\n        <meta name=\"twitter:image\" content=\"https://site.example/social.jpg\">\n        \n        <!-- JSON-LD Structured Data -->\n        <script type=\"application/ld+j" ++
  str "son\">\n        \x7b\n            \"@context\": \"https://schema.org\",\n            \"@type\": \"WebPage\",\n            \"name\": \"Home | Site\",\n            \"description\": \"Default description\",\n            \"url\": \"https://site.example/about\",\n            \"image\": \"https://site.example/social.jpg\",\n            \"publisher\": \x7b\n                \"@type\": \"Organization\",\n                \"name\": \"Site\"\n            \x7d\n        \x7d\n        </script>\n    </head><body></body></html>"

/-- Second application of the blog merge, over the (verified) literal
snapshot of the first application's output. -/
def blogTwice : Str :=
  blogMetaTransform envA (str "https://o.example") (str "hello") postA
    (str "NOW") blogOnceLit

/-- One application of the category merge to the category template. -/
def catOnce : Str :=
  categoryMetaTransform envA (str "https://o.example") (str "news") catRecordA
    (.resp true none) catDocA

/-- One application of the social merge to the generic page. -/
def socialOnce : Str :=
  socialMetaTransform envA (str "https://o.example") (str "/about")
    (.resp true none) socialDocHome

/-- Second application of the social merge, over the (verified) literal
snapshot of the first application's output. -/
def socialTwice : Str :=
  socialMetaTransform envA (str "https://o.example") (str "/about")
    (.resp true none) socialOnceLit

end Site

namespace Site

theorem replaceFirstM_of_none {m : Matcher} {s : Str} (repl : Str)
    (h : findIdx m s = none) : replaceFirstM m repl s = s := by
  simp [replaceFirstM, h]

theorem replaceAllM_of_none {m : Matcher} {s : Str} (repl : Str)
    (h : findIdx m s = none) : replaceAllM m repl s = s := by
  unfold replaceAllM
  cases hl : strLen s with
  | zero => rfl
  | succ k => simp [replaceAllGo, h]

theorem eqStr_eq : ∀ {a b : Str}, eqStr a b = true → a = b
  | [], [], _ => rfl
  | a :: as, b :: bs, h => by
    simp only [eqStr, Bool.and_eq_true, beq_iff_eq] at h
    exact h.1 ▸ congrArg (List.cons a) (eqStr_eq h.2)
  | [], _ :: _, h => by simp [eqStr] at h
  | _ :: _, [], h => by simp [eqStr] at h

theorem mem_replChar {x c : Char} {rep s : Str}
    (h : x ∈ replChar c rep s) : x ∈ rep ∨ (x ∈ s ∧ x ≠ c) := by
  induction s with
  | nil => simp [replChar] at h
  | cons a as ih =>
    simp only [replChar, List.mem_append] at h
    rcases h with h | h
    · by_cases hac : a = c
      · rw [if_pos hac] at h
        exact Or.inl h
      · rw [if_neg hac] at h
        simp at h
        subst h
        exact Or.inr ⟨List.mem_cons_self _ _, hac⟩
    · rcases ih h with h' | ⟨hs, hne⟩
      · exact Or.inl h'
      · exact Or.inr ⟨List.mem_cons_of_mem _ hs, hne⟩

theorem escapeHtmlAttr_no_specials (s : Str) :
    ∀ x ∈ escapeHtmlAttr s, x ≠ '<' ∧ x ≠ '>' ∧ x ≠ '"' ∧ x ≠ '\'' := by
  intro x hx
  unfold escapeHtmlAttr at hx
  rcases mem_replChar hx with h1 | ⟨h1, hq1⟩ <;>
    first
      | (refine ⟨?_, ?_, ?_, ?_⟩ <;> (intro he; subst he; revert h1; decide))
      | skip
  rcases mem_replChar h1 with h2 | ⟨h2, hq2⟩ <;>
    first
      | (refine ⟨?_, ?_, ?_, ?_⟩ <;> (intro he; subst he; revert h2; decide))
      | skip
  rcases mem_replChar h2 with h3 | ⟨h3, hq3⟩ <;>
    first
      | (refine ⟨?_, ?_, ?_, ?_⟩ <;> (intro he; subst he; revert h3; decide))
      | skip
  rcases mem_replChar h3 with h4 | ⟨h4, hq4⟩ <;>
    first
      | (refine ⟨?_, ?_, ?_, ?_⟩ <;> (intro he; subst he; revert h4; decide))
      | skip
  rcases mem_replChar h4 with h5 | ⟨h5, hq5⟩
  · refine ⟨?_, ?_, ?_, ?_⟩ <;> (intro he; subst he; revert h5; decide)
  · exact ⟨hq4, hq3, hq2, hq1⟩

end Site

namespace Site

/-- C6 counterexample: a document containing a `<title>` tag but no
`</head>` anchor is not returned unchanged — the unconditional in-place
title rewrite of the merge engine still fires. -/
theorem missing_head_anchor_still_rewrites :
    containsStr docTitleOnly (str "</head>") = false ∧
    blogMetaTransform envA (str "https://o.example") (str "hello") postA
      (str "NOW") docTitleOnly ≠ docTitleOnly := by
  exact ⟨by decide, by decide⟩

/-- C6 (amended): when `</head>` is absent the injection step is skipped and
nothing throws, but the unconditional in-place rewrites still apply; a
document is returned completely unchanged by all three rewriters exactly
when none of the rewrite patterns occurs in it either. -/
theorem missing_head_anchor_amended
    (env : Env) (origin slug now pathname : Str) (post : WPPost)
    (cat : WPCategory) (img latest : Fetch (Option Str)) (html : Str)
    (hHead : findIdx headClose html = none)
    (hTitle : findIdx (titleSpan false) html = none)
    (hTitleCI : findIdx (titleSpan true) html = none)
    (hCanon : findIdx canonReplSpan html = none)
    (hDesc : findIdx descReplSpan html = none)
    (hH1 : findIdx h1CategorySpan html = none)
    (hP : findIdx pCategorySpan html = none)
    (hX : findIdx xBlogListSpan html = none)
    (hCanonV : findIdx canonValSpan html = none)
    (hOgUrl : findIdx ogUrlValSpan html = none)
    (hTwUrl : findIdx twitterUrlValSpan html = none) :
    blogMetaTransform env origin slug post now html = html ∧
    categoryMetaTransform env origin slug cat img html = html ∧
    socialMetaTransform env origin pathname latest html = html := by
  refine ⟨?_, ?_, ?_⟩
  · simp only [blogMetaTransform]
    rw [replaceFirstM_of_none _ hTitle, replaceFirstM_of_none _ hCanon,
      replaceFirstM_of_none _ hDesc, ite_self, replaceFirstM_of_none _ hHead]
  · simp only [categoryMetaTransform]
    rw [replaceFirstM_of_none _ hTitle, replaceFirstM_of_none _ hCanon,
      replaceAllM_of_none _ hH1, replaceAllM_of_none _ hP,
      replaceFirstM_of_none _ hX, replaceFirstM_of_none _ hDesc, ite_self,
      replaceFirstM_of_none _ hHead]
  · simp only [socialMetaTransform]
    rw [replaceFirstM_of_none _ hHead, replaceFirstM_of_none _ hTitleCI,
      replaceFirstM_of_none _ hCanonV, replaceFirstM_of_none _ hOgUrl,
      replaceFirstM_of_none _ hTwUrl]

/-- Witness for the C6 amended theorem at a concrete pattern-free document. -/
theorem missing_head_anchor_amended_witness :
    blogMetaTransform envA (str "https://o.example") (str "s") postA
      (str "NOW") docPlain = docPlain ∧
    categoryMetaTransform envA (str "https://o.example") (str "s") catRecordA
      .netErr docPlain = docPlain ∧
    socialMetaTransform envA (str "https://o.example") (str "/about") .netErr
      docPlain = docPlain :=
  missing_head_anchor_amended envA (str "https://o.example") (str "s")
    (str "NOW") (str "/about") postA catRecordA .netErr .netErr docPlain
    (by decide) (by decide) (by decide) (by decide) (by decide) (by decide)
    (by decide) (by decide) (by decide) (by decide) (by decide)

/-- C5 counterexample: the slug "x!" fails `/^[a-zA-Z0-9_-]+$/`, but when it
arrives via the `cat` query parameter it is used as-is rather than treated
as absent: the rewriter proceeds to the categories fetch and, with no
matching category, returns the 404 redirect instead of passing through. -/
theorem query_slug_not_validated :
    validSlug (str "x!") = false ∧
    categorySlugOf (some (str "x!")) (str "/blog/c/whatever") = some (str "x!") ∧
    categoryMetaHandler envA (str "https://o.example") (str "/blog/c/whatever")
      (some (str "x!")) upstreamA (.resp true []) (.resp true none) =
      { status := 404, body := [], headers := [(str "Location", str "/404")] } := by
  exact ⟨by decide, by decide, by decide⟩

/-- C5 (amended): only the path-derived category slug is validated against
`/^[a-zA-Z0-9_-]+$/`; a non-empty slug arriving via the `cat` query
parameter bypasses validation entirely, while a path slug failing the
pattern is treated as absent and a conforming one is kept. -/
theorem category_slug_validation_amended :
    (∀ (s p : Str), s.isEmpty = false → categorySlugOf (some s) p = some s) ∧
    categorySlugOf none (str "/blog/c/x!") = none ∧
    categorySlugOf none (str "/blog/c/ok") = some (str "ok") := by
  refine ⟨?_, by decide, by decide⟩
  intro s p hs
  simp [categorySlugOf, optTruthy, hs]

/-- C8: a preview query whose token differs from the configured preview
secret — or whose secret is unset or empty — yields exactly the 401
`Unauthorized` JSON response, and the empty fetch trace shows that neither
the token-issuance fetch nor the resource fetch is performed. -/
theorem preview_auth_rejects_bad_token
    (env : Env) (slugP postsP offsetP categoryP categoriesP tokenP : Option Str)
    (wpCreds : Bool) (jwtFetch : Fetch (Option Str)) (wpFetch : WPFetch)
    (hauth : ∀ e, env.previewToken = some e → e.isEmpty = false → tokenP ≠ some e) :
    getBlog env slugP postsP offsetP categoryP categoriesP
      (some (str "true")) tokenP wpCreds jwtFetch wpFetch =
      .response
        { status := 401,
          body := str "\x7b\"error\":\"Unauthorized\",\"message\":\"Invalid preview token\"\x7d",
          headers := [(str "Content-Type", str "application/json")] }
        [] := by
  have hcond : (match env.previewToken with
      | none => true
      | some e => e.isEmpty || !(tokenP == some e)) = true := by
    cases henv : env.previewToken with
    | none => rfl
    | some e =>
      cases he : e.isEmpty with
      | true =>
        have he' : e = [] := by simpa using he
        simp [he']
      | false =>
        have hne : tokenP ≠ some e := hauth e henv he
        simp [hne]
  simp only [getBlog, hcond, Bool.and_true, beq_self_eq_true, if_true]

/-- Witness for C8 at a concrete wrong token. -/
theorem preview_auth_rejects_bad_token_witness :
    getBlog envA none none none none none (some (str "true"))
      (some (str "wrong")) false .netErr (.netErr (str "x")) =
      .response
        { status := 401,
          body := str "\x7b\"error\":\"Unauthorized\",\"message\":\"Invalid preview token\"\x7d",
          headers := [(str "Content-Type", str "application/json")] }
        [] :=
  preview_auth_rejects_bad_token envA none none none none none
    (some (str "wrong")) false .netErr (.netErr (str "x"))
    (by
      intro e he _
      have he' : e = str "sekret" := by
        have := he.symm
        simpa [envA] using this
      subst he'
      decide)

/-- C9: the posts page size is clamped into [1,100] whenever it is used in
the upstream query, but an invalid (non-numeric) offset is not clamped to 0:
`Math.max(0, parseInt("abc", 10))` is NaN and the upstream query URL then
literally contains `offset=NaN`. -/
theorem invalid_offset_yields_nan :
    (∀ (s : Str) (n : Int), validatedPostsOf (some s) = some (.num n) →
      1 ≤ n ∧ n ≤ 100) ∧
    offsetOf (some (str "abc")) = .nan ∧
    containsStr
      (getBlogWpUrl (str "https://wp.example/wp-json/wp/v2") none
        (some (str "5")) (some (str "abc")) none none false)
      (str "offset=NaN") = true := by
  refine ⟨?_, by decide, by decide⟩
  intro s n h
  rw [validatedPostsOf] at h
  cases ht : optTruthy (some s) with
  | false => rw [ht] at h; simp at h
  | true =>
    rw [ht] at h
    simp only [if_true, Option.getD_some] at h
    cases hp : parseInt10 s with
    | nan => rw [hp] at h; simp [jsMax, jsMin] at h
    | num m =>
      rw [hp] at h
      simp only [jsMax, jsMin, Option.some.injEq, JsNum.num.injEq] at h
      omega

/-- C1 counterexample: the CMS-supplied featured-image URL (blog rewriter)
and the existing description (social rewriter) are interpolated into the
injected head markup verbatim; an ampersand in them is not escaped even
though `escapeHtmlAttr` would rewrite it. -/
theorem unescaped_interpolation_example :
    containsStr
      (blogMetaTransform envA (str "https://o.example") (str "hello") postAmp
        (str "NOW") blogDocBare)
      (str "<meta property=\"og:image\" content=\"https://x.example/i.jpg?a=1&b=2\">") = true ∧
    escapeHtmlAttr (str "https://x.example/i.jpg?a=1&b=2") ≠
      str "https://x.example/i.jpg?a=1&b=2" ∧
    containsStr
      (socialMetaTransform envA (str "https://o.example") (str "/about")
        .netErr socialDocAmp)
      (str "<meta property=\"og:description\" content=\"Fish & Chips\">") = true := by
  exact ⟨by decide, by decide, by decide⟩

/-- C1 (amended): the values routed through `escapeHtmlAttr` — post title
and excerpt, category name and description, JSON-LD author — are
HTML-attribute-escaped, and escaping removes every `<`, `>`, `"` and `'`;
but image URLs are interpolated verbatim by the blog rewriter, and the
social rewriter escapes nothing at all. -/
theorem escaping_scope_amended :
    (∀ (s : Str), ∀ x ∈ escapeHtmlAttr s,
      x ≠ '<' ∧ x ≠ '>' ∧ x ≠ '"' ∧ x ≠ '\'') ∧
    containsStr
      (blogMetaTransform envA (str "https://o.example") (str "hello")
        postTitleAmp (str "NOW") blogDocBare)
      (str "<meta property=\"og:title\" content=\"A &amp; B | Site\">") = true ∧
    containsStr
      (blogMetaTransform envA (str "https://o.example") (str "hello") postAmp
        (str "NOW") blogDocBare)
      (str "<meta name=\"twitter:image\" content=\"https://x.example/i.jpg?a=1&b=2\">") = true := by
  exact ⟨escapeHtmlAttr_no_specials, by decide, by decide⟩

/-- C2 counterexample: a document whose description tag exists with empty
content ends up with two description tags after the blog merge — the tag is
rewritten in place and a fresh one is injected before `</head>`. -/
theorem empty_description_duplicated :
    (descriptionCapture blogDocEmptyDesc).isSome = true ∧
    atLeastOccurs 2 (lit false "<meta name=\"description\"")
      (blogMetaTransform envA (str "https://o.example") (str "hello") postA
        (str "NOW") blogDocEmptyDesc) = true ∧
    atLeastOccurs 3 (lit false "<meta name=\"description\"")
      (blogMetaTransform envA (str "https://o.example") (str "hello") postA
        (str "NOW") blogDocEmptyDesc) = false := by
  exact ⟨by decide, by decide, by decide⟩

/-- C2 (amended): a new description tag is injected before `</head>` when
the tag is absent or present with empty content; a document with an
existing non-empty description tag yields exactly one description tag
(rewritten in place), a document without one yields exactly one (injected),
but the empty-content case yields two. -/
theorem description_injection_amended :
    atLeastOccurs 1 (lit false "<meta name=\"description\"")
      (blogMetaTransform envA (str "https://o.example") (str "hello") postA
        (str "NOW") blogDocDesc) = true ∧
    atLeastOccurs 2 (lit false "<meta name=\"description\"")
      (blogMetaTransform envA (str "https://o.example") (str "hello") postA
        (str "NOW") blogDocDesc) = false ∧
    containsStr
      (blogMetaTransform envA (str "https://o.example") (str "hello") postA
        (str "NOW") blogDocDesc)
      (str "<meta name=\"description\" content=\"An excerpt\">") = true ∧
    containsStr
      (blogMetaTransform envA (str "https://o.example") (str "hello") postA
        (str "NOW") blogDocDesc) (str "Existing text") = false ∧
    atLeastOccurs 1 (lit false "<meta name=\"description\"")
      (blogMetaTransform envA (str "https://o.example") (str "hello") postA
        (str "NOW") blogDocBare) = true ∧
    atLeastOccurs 2 (lit false "<meta name=\"description\"")
      (blogMetaTransform envA (str "https://o.example") (str "hello") postA
        (str "NOW") blogDocBare) = false ∧
    atLeastOccurs 1 (lit false "<meta name=\"description\"")
      (categoryMetaTransform envA (str "https://o.example") (str "news")
        catRecordA (.resp true none) blogDocDesc) = true ∧
    atLeastOccurs 2 (lit false "<meta name=\"description\"")
      (categoryMetaTransform envA (str "https://o.example") (str "news")
        catRecordA (.resp true none) blogDocDesc) = false := by
  exact ⟨by decide, by decide, by decide, by decide, by decide, by decide,
    by decide, by decide⟩

/-- C4 counterexample: when the optional fallback-image fetch fails with a
transport error, the category rewriter does not fall back to the original
upstream HTML — the page is still fully enriched (with the default image),
so the response body differs from the original. -/
theorem image_fetch_failure_still_enriches :
    (categoryMetaHandler envA (str "https://o.example") (str "/blog/c/news")
        none upstreamA (.resp true [catRecordA]) .netErr).status =
      upstreamA.status ∧
    (categoryMetaHandler envA (str "https://o.example") (str "/blog/c/news")
        none upstreamA (.resp true [catRecordA]) .netErr).body ≠
      upstreamA.body ∧
    containsStr
      (categoryMetaHandler envA (str "https://o.example") (str "/blog/c/news")
        none upstreamA (.resp true [catRecordA]) .netErr).body
      (str "og:title") = true := by
  exact ⟨by decide, by decide, by decide⟩

/-- C4 (amended): when the primary resource fetch fails (network error or
non-OK response) the blog and category rewriters return the upstream
response unchanged; but a failure of the optional fallback-image fetch does
not abort enrichment — the page is still rewritten with the default image. -/
theorem fetch_failure_passthrough_amended :
    (∀ (env : Env) (origin pathname : Str) (catParam : Option Str)
        (upstream : NetResponse) (img : Fetch (Option Str))
        (pl : List WPCategory),
      optTruthy (categorySlugOf catParam pathname) = true →
        categoryMetaHandler env origin pathname catParam upstream .netErr img =
          upstream ∧
        categoryMetaHandler env origin pathname catParam upstream
          (.resp false pl) img = upstream) ∧
    (∀ (env : Env) (origin pathname now : Str) (slugParam : Option Str)
        (upstream : NetResponse) (pl : List WPPost),
      optTruthy slugParam = true →
        blogMetaHandler env origin pathname slugParam upstream .netErr now =
          upstream ∧
        blogMetaHandler env origin pathname slugParam upstream
          (.resp false pl) now = upstream) ∧
    (socialMetaHandler envA (str "https://o.example") (str "/blog") false
        upstreamSocial true .netErr).body ≠ upstreamSocial.body := by
  refine ⟨?_, ?_, by decide⟩
  · intro env origin pathname catParam upstream img pl h
    constructor <;> simp [categoryMetaHandler, h]
  · intro env origin pathname now slugParam upstream pl h
    constructor <;> simp [blogMetaHandler, h]

/-- C7 counterexample: a blog post page (not a listing) whose document has
no `og:image` tag and whose post has no featured image gets no `og:image`
tag at all — not one pointing at `<site>/social.jpg`. -/
theorem blog_post_without_image_omits_og_image :
    ogImageCapture blogDocBare = none ∧
    containsStr
      (blogMetaTransform envA (str "https://o.example") (str "hello") postA
        (str "NOW") blogDocBare) (str "og:image") = false ∧
    containsStr
      (blogMetaTransform envA (str "https://o.example") (str "hello") postA
        (str "NOW") blogDocBare) (str "/social.jpg") = false := by
  exact ⟨by decide, by decide, by decide⟩

/-- C7 (amended): the generic/social rewriter does insert
`SITE_URL + "/social.jpg"` when no `og:image` tag exists on a non-listing
page, and the category rewriter defaults to the request origin plus
`/social.jpg`; but the blog post rewriter simply omits `og:image` when the
post has no featured image. -/
theorem default_og_image_amended :
    (∀ (siteUrl pathname : Str) (latestFetch : Fetch (Option Str)) (html : Str),
      ogImageCapture html = none →
      (pathname == str "/blog" || pathname == str "/blog/") = false →
      socialImageUrl siteUrl pathname latestFetch html =
        siteUrl ++ str "/social.jpg") ∧
    containsStr
      (socialMetaTransform envA (str "https://o.example") (str "/about")
        .netErr socialDocHome)
      (str "<meta property=\"og:image\" content=\"https://site.example/social.jpg\">") = true ∧
    containsStr
      (categoryMetaTransform envA (str "https://o.example") (str "news")
        catRecordA .netErr catDocA)
      (str "<meta property=\"og:image\" content=\"https://o.example/social.jpg\">") = true := by
  refine ⟨?_, by decide, by decide⟩
  intro siteUrl pathname latestFetch html h1 h2
  simp [socialImageUrl, h1, h2]

/-- C3 counterexample: the social rewriter is not idempotent on the title:
a second application with the same configuration appends the site title
again. -/
theorem social_title_not_idempotent :
    socialOnce = socialOnceLit ∧
    titleCapture socialOnceLit = some (str "Home | Site") ∧
    titleCapture socialTwice = some (str "Home | Site | Site") := by
  exact ⟨eqStr_eq (by decide), by decide, by decide⟩

/-- C3 (amended): the blog and category rewriters, which rebuild the
normalized tags from the resolved resource, give the same title, canonical,
og:url and twitter:url content after two applications as after one on the
template documents; the social rewriter does so for canonical, og:url and
twitter:url, but not for the title. -/
theorem idempotence_amended :
    blogOnce = blogOnceLit ∧
    titleCapture blogOnceLit = some (str "Hello | Site") ∧
    titleCapture blogTwice = some (str "Hello | Site") ∧
    canonicalCapture blogOnceLit = some (str "https://site.example/blog/hello") ∧
    canonicalCapture blogTwice = some (str "https://site.example/blog/hello") ∧
    ogUrlCapture blogOnceLit = some (str "https://site.example/blog/hello") ∧
    ogUrlCapture blogTwice = some (str "https://site.example/blog/hello") ∧
    twitterUrlCapture blogOnceLit = some (str "https://site.example/blog/hello") ∧
    twitterUrlCapture blogTwice = some (str "https://site.example/blog/hello") ∧
    socialOnce = socialOnceLit ∧
    canonicalCapture socialOnceLit = some (str "https://site.example/about") ∧
    canonicalCapture socialTwice = some (str "https://site.example/about") ∧
    ogUrlCapture socialOnceLit = some (str "https://site.example/about") ∧
    ogUrlCapture socialTwice = some (str "https://site.example/about") ∧
    twitterUrlCapture socialOnceLit = some (str "https://site.example/about") ∧
    twitterUrlCapture socialTwice = some (str "https://site.example/about") := by
  refine ⟨eqStr_eq (by decide), by decide, by decide, by decide, by decide,
    by decide, by decide, by decide, by decide, eqStr_eq (by decide),
    by decide, by decide, by decide, by decide, by decide, by decide⟩

/-- C10: enriching the category template rewrites content outside the
`<head>`: the `<h1 id="category-title">` text becomes the category name,
the `<p id="category-description">` text becomes its description, the
`<x-blog-list id="category-posts">` element gains the category id, and the
original placeholder text is gone. -/
theorem category_body_rewrites :
    containsStr catOnce (str "<h1 id=\"category-title\">Blog: News</h1>") = true ∧
    containsStr catOnce
      (str "<p id=\"category-description\">Latest news</p>") = true ∧
    containsStr catOnce
      (str "<x-blog-list id=\"category-posts\" category=\"7\"></x-blog-list>") = true ∧
    containsStr catOnce (str "Loading") = false ∧
    containsStr catDocA (str "Loading") = true := by
  exact ⟨by decide, by decide, by decide, by decide, by decide⟩


example : Site.str "ab" = ['a', 'b'] := by decide
example : Site.jsTrim (Site.str "  hi  ") = Site.str "hi" := by decide
example :
    Site.findIdx (Site.lit false "</head>") (Site.str "<head>x</head>y") =
      some (7, 7) := by decide
example :
    Site.replaceFirstM (Site.lit false "b") (Site.str "XY") (Site.str "abcb") =
      Site.str "aXYcb" := by decide
example :
    Site.replaceAllM (Site.lit false "b") (Site.str "XY") (Site.str "abcb") =
      Site.str "aXYcXY" := by decide
example :
    Site.findQuoteCap
      (Site.seqList [Site.lit true "<meta", Site.wsPlus,
        Site.lit true "name=\"description\"", Site.wsPlus,
        Site.lit true "content=\""])
      (Site.str "<p>x</p><META  name=\"DESCRIPTION\" content=\"hello\">") =
      some (Site.str "hello") := by decide
example : Site.parseInt10 (Site.str "abc") = .nan := by decide
example : Site.parseInt10 (Site.str " -5x") = .num (-5) := by decide
example : Site.jsMax 0 (Site.parseInt10 (Site.str "zz")) = .nan := by decide
example : Site.escapeHtmlAttr (Site.str "a&<\"b") = Site.str "a&amp;&lt;&quot;b" := by decide
example : Site.validSlug (Site.str "my-post") = true := by decide
example : Site.validSlug (Site.str "my-post!") = false := by decide
example : Site.parseURL (Site.str "https://ex.com/wp-json/wp/v2") =
    some { origin := Site.str "https://ex.com", pathname := Site.str "/wp-json/wp/v2" } := by decide
example : Site.parseURL (Site.str "/relative") = none := by decide
example : (Site.JsNum.toStr .nan) = Site.str "NaN" := by decide
example : Site.intToStr 42 = Site.str "42" := by decide
example : Site.titleCapture (Site.str "<p></p><title>Hi there</title>") = some (Site.str "Hi there") := by decide
example : Site.findIdx Site.canonReplSpan (Site.str "x<link rel=\"canonical\" href=\"/y\" />z") = some (1, 34) := by decide
example : Site.replaceAllM Site.tagSpan [] (Site.str "<p>Hello <b>world</b></p>") = Site.str "Hello world" := by decide
example : Site.replaceAllM Site.entitySpan (Site.str " ") (Site.str "a&amp;b&#39;c") = Site.str "a b c" := by decide

end Site
